import Mathlib

namespace BarcodeGen

/-! Shallow embedding of the barcode generator application
(src/try.py and src/logic/barcode_generator.py).

Strings are modelled as lists of characters with ASCII semantics.  The
external libraries (python-barcode, reportlab, PIL, wx) are modelled by an
explicit environment recording whether each external call succeeds,
together with a filesystem state recording the final output files written
and the temporary image files currently present in the working directory. -/

/-- Python str.isalnum, restricted to ASCII semantics. -/
def pyIsAlnum (c : Char) : Bool := c.isAlpha || c.isDigit

/-- The character filter in the safe-filename expressions of try.py
(lines 533 and 660) and barcode_generator.py (line 39):
keep c exactly when c.isalnum() or c in (' ', '-', '_'). -/
def keepChar (c : Char) : Bool := pyIsAlnum c || c == ' ' || c == '-' || c == '_'

/-- Python string whitespace (ASCII part), as used by strip and rstrip. -/
def pyIsSpace (c : Char) : Bool :=
  c == ' ' || c == '\t' || c == '\n' || c == '\r' || c == '\x0b' || c == '\x0c'

/-- Python str.rstrip(). -/
def pyRstrip (l : List Char) : List Char := (l.reverse.dropWhile pyIsSpace).reverse

/-- Python str.lstrip(). -/
def pyLstrip (l : List Char) : List Char := l.dropWhile pyIsSpace

/-- Python str.strip(). -/
def pyStrip (l : List Char) : List Char := pyRstrip (pyLstrip l)

/-- Python str.upper(), ASCII semantics (character-by-character map, so
that it reduces by evaluation). -/
def pyUpper (s : String) : String := String.mk (s.data.map Char.toUpper)

/-- "".join(c for c in s if c.isalnum() or c in (' ', '-', '_')).rstrip() -/
def sanitizeFilename (l : List Char) : List Char := pyRstrip (l.filter keepChar)

/-- Decimal digits of n, least significant first (fuel-based recursion so
that the definition reduces by evaluation). -/
def natDigitsRevAux : Nat → Nat → List Nat
  | 0, _ => []
  | fuel + 1, n => if n = 0 then [] else n % 10 :: natDigitsRevAux fuel (n / 10)

def natDigitsRev (n : Nat) : List Nat := natDigitsRevAux n n

/-- The ASCII digit character for d. -/
def digitChar (d : Nat) : Char := Char.ofNat (48 + d)

/-- Python str(n) for a natural number. -/
def natChars (n : Nat) : List Char :=
  if n = 0 then ['0'] else (natDigitsRev n).reverse.map digitChar

/-- Python format "%04d" (the f-string field {i+1:04d} of try.py line 659):
zero-pad the decimal rendering on the left to width 4. -/
def pyFormat04 (n : Nat) : List Char :=
  List.replicate (4 - (natChars n).length) '0' ++ natChars n

/-- Value of a little-endian digit list (used only in proofs, to invert
the decimal rendering). -/
def natFromRev : List Nat → Nat
  | [] => 0
  | d :: ds => natFromRev ds * 10 + d

/-- Parse a decimal character string back to a number (proof tool). -/
def charsToNat (l : List Char) : Nat :=
  l.foldl (fun acc c => acc * 10 + (c.toNat - 48)) 0

/-- Errors raised by the generators, classified by the spec's taxonomy;
each constructor carries the message of the corresponding raise site. -/
inductive GenErr where
  | invalidInput : String → GenErr
  | unsupportedFeature : String → GenErr
  | encodingFailure : String → GenErr
  | ioFailure : String → GenErr
deriving DecidableEq

def errMsg : GenErr → String
  | .invalidInput m => m
  | .unsupportedFeature m => m
  | .encodingFailure m => m
  | .ioFailure m => m

/-- Filesystem state: final output files written so far, and temporary
image files currently present in the working directory. -/
structure St where
  written : List (List Char)
  temps : List (List Char)
deriving DecidableEq

/-- Behaviour of the external libraries: whether PDF support was imported
(HAS_PDF_SUPPORT), whether the barcode encoder's save succeeds on a given
text, and whether the reportlab drawImage / canvas save and os.remove
calls succeed. -/
structure Env where
  hasPdfSupport : Bool
  encodeSaveOk : List Char → Bool
  drawImageOk : Bool
  canvasSaveOk : Bool
  removeOk : Bool

/-- The fixed symbology registry of BarcodeGeneratorFrame (try.py 31-39). -/
def barcode_types : List String :=
  ["Code128", "Code39", "EAN13", "EAN8", "UPC-A", "ITF", "CODABAR"]

/-- The fixed symbology registry of BarcodeGenerator
(logic/barcode_generator.py 24-31). -/
def logic_barcode_types : List String :=
  ["EAN13", "EAN8", "Code128", "Code39", "UPC", "ISBN13"]

/-- code.save("temp_barcode") with an ImageWriter returns this path. -/
def temp_barcode_png : List Char := "temp_barcode.png".data

/-- try.py generate_pdf_barcode (lines 565-604): encode to a temporary
raster image, embed it in a one-page PDF, then remove the temporary image
guarded by an existence check; every exception is re-raised. -/
def try_generate_pdf_barcode (env : Env) (st : St) (text : List Char)
    (output_dir filename : List Char) : St × Except GenErr Bool :=
  if env.hasPdfSupport = false then
    (st, .error (.unsupportedFeature "PDF support not available. Please install reportlab and pillow."))
  else if env.encodeSaveOk text = false then
    (st, .error (.encodingFailure "barcode save failed"))
  else
    let st1 : St := { st with temps := st.temps ++ [temp_barcode_png] }
    let pdf_path := output_dir ++ '/' :: (filename ++ ".pdf".data)
    if env.drawImageOk = false then (st1, .error (.ioFailure "drawImage failed"))
    else if env.canvasSaveOk = false then (st1, .error (.ioFailure "canvas save failed"))
    else
      let st2 : St := { st1 with written := st1.written ++ [pdf_path] }
      if temp_barcode_png ∈ st2.temps then
        if env.removeOk then
          ({ st2 with temps := st2.temps.filter (fun f => !(f == temp_barcode_png)) }, .ok true)
        else (st2, .error (.ioFailure "os.remove failed"))
      else (st2, .ok true)

/-- try.py generate_barcode (lines 526-563).  The timestamp argument
stands for datetime.now().strftime("%Y%m%d_%H%M%S"). -/
def try_generate_barcode (env : Env) (st : St) (text : List Char)
    (barcode_type output_format : String) (output_dir : List Char)
    (filenameOpt : Option (List Char)) (timestamp : List Char) :
    St × Except GenErr Bool :=
  if (barcode_types.contains barcode_type) = false then
    (st, .error (.invalidInput ("KeyError: " ++ barcode_type)))
  else
    let filename := filenameOpt.getD ("barcode_".data ++ sanitizeFilename text ++ '_' :: timestamp)
    if output_format == "SVG" then
      if env.encodeSaveOk text then
        ({ st with written := st.written ++ [output_dir ++ '/' :: (filename ++ ".svg".data)] }, .ok true)
      else (st, .error (.encodingFailure "barcode save failed"))
    else if output_format == "PDF" && env.hasPdfSupport then
      try_generate_pdf_barcode env st text output_dir filename
    else
      if env.encodeSaveOk text then
        ({ st with written := st.written ++ [output_dir ++ '/' :: (filename ++ ".png".data)] }, .ok true)
      else (st, .error (.encodingFailure "barcode save failed"))

/-- try.py on_generate_single (lines 505-524): validates that the stripped
text is non-empty, then delegates to generate_barcode. -/
def on_generate_single (env : Env) (st : St) (rawText : List Char)
    (barcode_type output_format : String) (output_dir timestamp : List Char) :
    St × Except GenErr Bool :=
  let text := pyStrip rawText
  if text.isEmpty then (st, .error (.invalidInput "Please enter text for the barcode."))
  else try_generate_barcode env st text barcode_type output_format output_dir none timestamp

/-- The per-item filename of the individual-output batch loop
(try.py lines 659-660). -/
def batch_filename (pre : List Char) (i : Nat) (text : List Char) : List Char :=
  sanitizeFilename (pre ++ pyFormat04 (i + 1) ++ '_' :: text.take 20)

/-- The individual-output loop of on_generate_batch (try.py 657-679):
returns the final state, the success count and the failed-items list. -/
def batchLoop (env : Env) (barcode_type output_format : String)
    (output_dir pre : List Char) :
    List (List Char) → Nat → St → St × Nat × List (List Char)
  | [], _, st => (st, 0, [])
  | text :: rest, i, st =>
    let format_to_use := if output_format == "PDF (Individual)" then "PDF" else output_format
    let r := try_generate_barcode env st text barcode_type format_to_use output_dir
      (some (batch_filename pre i text)) []
    let rest_r := batchLoop env barcode_type output_format output_dir pre rest (i + 1) r.1
    match r.2 with
    | .ok true => (rest_r.1, rest_r.2.1 + 1, rest_r.2.2)
    | .ok false => (rest_r.1, rest_r.2.1, text :: rest_r.2.2)
    | .error e => (rest_r.1, rest_r.2.1, (text ++ (" (Error: " ++ errMsg e ++ ")").data) :: rest_r.2.2)

/-- reportlab's millimetre unit: 72 points per inch, 25.4 mm per inch
(modelled with exact rationals in place of binary floats). -/
def mmQ : ℚ := 72 / (254 / 10)

/-- reportlab A4 page width, 210 mm. -/
def A4_width : ℚ := 210 * mmQ

/-- reportlab A4 page height, 297 mm. -/
def A4_height : ℚ := 297 * mmQ

/-- Python int() applied to a non-negative rational: truncation,
which for non-negative values is the floor. -/
def pyInt (q : ℚ) : Nat := (⌊q⌋).toNat

def comb_margin : ℚ := 72
def comb_barcode_height : ℚ := 80
def comb_barcode_width : ℚ := 250
def comb_spacing : ℚ := 20
def usable_width : ℚ := A4_width - 2 * comb_margin
def usable_height : ℚ := A4_height - 2 * comb_margin

/-- try.py line 727: barcodes_per_row = max(1, int(usable_width / (barcode_width + spacing))). -/
def barcodes_per_row : Nat := max 1 (pyInt (usable_width / (comb_barcode_width + comb_spacing)))

/-- try.py line 728. -/
def barcodes_per_column : Nat := max 1 (pyInt (usable_height / (comb_barcode_height + comb_spacing)))

/-- try.py line 729. -/
def barcodes_per_page : Nat := barcodes_per_row * barcodes_per_column

/-- The item loop of generate_combined_pdf (try.py 733-766).  Returns the
final state together with the list of drawImage placements
(global index, x coordinate, y coordinate).  A per-item exception is
printed and the item skipped; page breaks (showPage) produce no
observable tracked here since coordinates are per-page. -/
def combinedLoop (env : Env) (barcode_type : String) :
    List (List Char) → Nat → St → St × List (Nat × ℚ × ℚ)
  | [], _, st => (st, [])
  | text :: rest, i, st =>
    if env.encodeSaveOk text then
      let temp := "temp_barcode_".data ++ natChars i ++ ".png".data
      let st1 : St := { st with temps := st.temps ++ [temp] }
      let page_position := i % barcodes_per_page
      let row := page_position / barcodes_per_row
      let col := page_position % barcodes_per_row
      let x : ℚ := comb_margin + (col : ℚ) * (comb_barcode_width + comb_spacing)
      let y : ℚ := A4_height - comb_margin - ((row : ℚ) + 1) * (comb_barcode_height + comb_spacing)
      if env.drawImageOk then
        let st2 : St :=
          if temp ∈ st1.temps then
            if env.removeOk then { st1 with temps := st1.temps.filter (fun f => !(f == temp)) }
            else st1
          else st1
        let rest_r := combinedLoop env barcode_type rest (i + 1) st2
        (rest_r.1, (i, x, y) :: rest_r.2)
      else
        let rest_r := combinedLoop env barcode_type rest (i + 1) st1
        (rest_r.1, rest_r.2)
    else
      let rest_r := combinedLoop env barcode_type rest (i + 1) st
      (rest_r.1, rest_r.2)

/-- try.py generate_combined_pdf (lines 695-773): runs the item loop, then
c.save(); a fatal failure is caught and reported as False. -/
def generate_combined_pdf (env : Env) (st : St) (data : List (List Char))
    (barcode_type : String) (output_dir pre : List Char) :
    St × Bool × List (Nat × ℚ × ℚ) :=
  if env.hasPdfSupport = false then (st, false, [])
  else
    let pdf_path := output_dir ++ '/' :: (pre ++ "combined_barcodes.pdf".data)
    let loop_r := combinedLoop env barcode_type data 0 st
    if env.canvasSaveOk then
      ({ loop_r.1 with written := loop_r.1.written ++ [pdf_path] }, true, loop_r.2)
    else (loop_r.1, false, loop_r.2)

/-- try.py on_generate_batch (lines 606-693), from the point where the
input data has been read: empty data is rejected; the combined-PDF branch
sets successful = len(data) only when the assembler returns True and never
touches failed_items; otherwise the individual loop runs. -/
def on_generate_batch (env : Env) (st : St) (data : List (List Char))
    (barcode_type output_format : String) (output_dir pre : List Char) :
    St × Except GenErr (Nat × List (List Char)) :=
  if data.isEmpty then (st, .error (.invalidInput "No data found in the input file."))
  else if output_format == "PDF (Combined)" && env.hasPdfSupport then
    let r := generate_combined_pdf env st data barcode_type output_dir pre
    (r.1, .ok (if r.2.1 then data.length else 0, []))
  else
    let r := batchLoop env barcode_type output_format output_dir pre data 0 st
    (r.1, .ok (r.2.1, r.2.2))

/-- The (success_count, failed_items) pair reported at the end of a batch
run (try.py lines 682-690). -/
def batchReport (r : St × Except GenErr (Nat × List (List Char))) :
    Nat × List (List Char) :=
  match r.2 with
  | .ok p => p
  | .error _ => (0, [])

/-- logic/barcode_generator.py generate_pdf_barcode (lines 76-95):
identical cleanup structure to the try.py variant, returning the pdf path. -/
def logic_generate_pdf_barcode (env : Env) (st : St) (text : List Char)
    (output_dir filename : List Char) : St × Except GenErr (List Char) :=
  if env.encodeSaveOk text = false then (st, .error (.encodingFailure "barcode save failed"))
  else
    let st1 : St := { st with temps := st.temps ++ [temp_barcode_png] }
    let pdf_path := output_dir ++ '/' :: (filename ++ ".pdf".data)
    if env.drawImageOk = false then (st1, .error (.ioFailure "drawImage failed"))
    else if env.canvasSaveOk = false then (st1, .error (.ioFailure "canvas save failed"))
    else
      let st2 : St := { st1 with written := st1.written ++ [pdf_path] }
      if temp_barcode_png ∈ st2.temps then
        if env.removeOk then
          ({ st2 with temps := st2.temps.filter (fun f => !(f == temp_barcode_png)) }, .ok pdf_path)
        else (st2, .error (.ioFailure "os.remove failed"))
      else (st2, .ok pdf_path)

/-- logic/barcode_generator.py generate_barcode (lines 33-74): unlike the
try.py variant, the PDF branch tests output_format case-insensitively and
raises when PDF support is unavailable. -/
def logic_generate_barcode (env : Env) (st : St) (text : List Char)
    (barcode_type output_format : String) (output_dir : List Char)
    (filenameOpt : Option (List Char)) (timestamp : List Char) :
    St × Except GenErr (List Char) :=
  if (logic_barcode_types.contains barcode_type) = false then
    (st, .error (.invalidInput ("KeyError: " ++ barcode_type)))
  else
    let filename := filenameOpt.getD ("barcode_".data ++ sanitizeFilename text ++ '_' :: timestamp)
    if pyUpper output_format == "SVG" then
      if env.encodeSaveOk text then
        ({ st with written := st.written ++ [output_dir ++ '/' :: (filename ++ ".svg".data)] },
          .ok (output_dir ++ '/' :: (filename ++ ".svg".data)))
      else (st, .error (.encodingFailure "barcode save failed"))
    else if pyUpper output_format == "PDF" then
      if env.hasPdfSupport = false then
        (st, .error (.unsupportedFeature "PDF support not available. Install reportlab and pillow."))
      else logic_generate_pdf_barcode env st text output_dir filename
    else
      if env.encodeSaveOk text then
        ({ st with written := st.written ++ [output_dir ++ '/' :: (filename ++ ".png".data)] },
          .ok (output_dir ++ '/' :: (filename ++ ".png".data)))
      else (st, .error (.encodingFailure "barcode save failed"))

/-- A settings value: JSON string, number or boolean (numbers modelled as
exact rationals; json round-trips all three kinds exactly). -/
inductive SVal where
  | s : String → SVal
  | q : ℚ → SVal
  | b : Bool → SVal
deriving DecidableEq

/-- A Python dict as written to / read from the settings JSON file. -/
abbrev Settings := List (String × SVal)

/-- The built-in defaults of BarcodeGeneratorFrame (try.py 42-51). -/
def default_settings : Settings :=
  [("default_barcode_type", .s "Code128"),
   ("default_output_format", .s "PNG"),
   ("default_output_dir", .s "~/Downloads"),
   ("barcode_width", .q 2),
   ("barcode_height", .q 15),
   ("include_text", .b true),
   ("text_distance", .q 5),
   ("font_size", .q 10)]

/-- Dictionary lookup (first matching key). -/
def dget (d : Settings) (k : String) : Option SVal :=
  (d.find? (fun p => p.1 == k)).map (fun p => p.2)

/-- Python dict.update(s): every key of s is set to s's value; keys of d
absent from s keep their value; keys of s absent from d are appended. -/
def dictUpdate (d s : Settings) : Settings :=
  d.map (fun p => (p.1, (dget s p.1).getD p.2)) ++
    s.filter (fun p => (dget d p.1).isNone)

/-- try.py save_settings (71-77): json.dump of the settings dict; the file
content is the dict itself (JSON round-trips these value kinds exactly). -/
def save_settings (s : Settings) : Settings := s

/-- try.py load_settings (60-69) on a fresh start: the settings start as
the built-in defaults and are updated with the parsed file when present. -/
def load_settings (file : Option Settings) : Settings :=
  match file with
  | none => default_settings
  | some saved => dictUpdate default_settings saved

/-- Concrete environments and an empty filesystem, for witnesses. -/
def st0 : St := ⟨[], []⟩
def envAllOk : Env := ⟨true, fun _ => true, true, true, true⟩
def envNoPdf : Env := ⟨false, fun _ => true, true, true, true⟩
def envSaveFail : Env := ⟨true, fun _ => true, true, false, true⟩
def envEncodeFail : Env := ⟨true, fun _ => false, true, true, true⟩

/-! Helper lemmas about the character-level functions. -/

theorem head?_dropWhile (p : α → Bool) :
    ∀ (l : List α) (c : α), (l.dropWhile p).head? = some c → p c = false := by
  intro l
  induction l with
  | nil => intro c h; simp [List.dropWhile] at h
  | cons a l ih =>
    intro c h
    rw [List.dropWhile_cons] at h
    by_cases ha : p a
    · rw [if_pos ha] at h; exact ih c h
    · rw [if_neg ha] at h
      simp at h
      subst h
      simpa using ha

theorem mem_dropWhile (p : α → Bool) :
    ∀ (l : List α) (c : α), c ∈ l.dropWhile p → c ∈ l := by
  intro l
  induction l with
  | nil => intro c h; simp [List.dropWhile] at h
  | cons a l ih =>
    intro c h
    rw [List.dropWhile_cons] at h
    by_cases ha : p a
    · rw [if_pos ha] at h; exact List.mem_cons_of_mem a (ih c h)
    · rw [if_neg ha] at h; exact h

theorem mem_pyRstrip (l : List Char) (c : Char) (h : c ∈ pyRstrip l) : c ∈ l := by
  rw [pyRstrip, List.mem_reverse] at h
  exact List.mem_reverse.mp (mem_dropWhile pyIsSpace l.reverse c h)

theorem dropWhile_append_cons (p : α → Bool) (c : α) (hc : p c = false) :
    ∀ (xs ys : List α), List.dropWhile p (xs ++ c :: ys) = List.dropWhile p xs ++ c :: ys := by
  intro xs ys
  induction xs with
  | nil => simp [List.dropWhile_cons, hc]
  | cons a xs ih =>
    rw [List.cons_append, List.dropWhile_cons, List.dropWhile_cons]
    by_cases ha : p a
    · rw [if_pos ha, if_pos ha]; exact ih
    · rw [if_neg ha, if_neg ha, List.cons_append]

theorem filter_ne_of_not_mem (l : List (List Char)) (a : List Char) (h : a ∉ l) :
    l.filter (fun f => !(f == a)) = l := by
  apply List.filter_eq_self.mpr
  intro x hx
  have hxa : x ≠ a := fun hxa => h (hxa ▸ hx)
  simp [hxa]

/-! Helper lemmas about decimal rendering. -/

theorem natDigitsRevAux_lt : ∀ (fuel n d : Nat), d ∈ natDigitsRevAux fuel n → d < 10 := by
  intro fuel
  induction fuel with
  | zero => intro n d h; simp [natDigitsRevAux] at h
  | succ fuel ih =>
    intro n d h
    rw [natDigitsRevAux] at h
    by_cases hn : n = 0
    · rw [if_pos hn] at h; simp at h
    · rw [if_neg hn] at h
      rcases List.mem_cons.mp h with h | h
      · subst h; exact Nat.mod_lt n (by norm_num)
      · exact ih (n / 10) d h

theorem natFromRev_natDigitsRevAux : ∀ (fuel n : Nat), n ≤ fuel →
    natFromRev (natDigitsRevAux fuel n) = n := by
  intro fuel
  induction fuel with
  | zero => intro n h; interval_cases n; simp [natDigitsRevAux, natFromRev]
  | succ fuel ih =>
    intro n h
    rw [natDigitsRevAux]
    by_cases hn : n = 0
    · rw [if_pos hn, natFromRev]; omega
    · rw [if_neg hn, natFromRev, ih (n / 10) (by omega)]
      omega

theorem digitChar_toNat (d : Nat) (h : d < 10) : (digitChar d).toNat = 48 + d := by
  interval_cases d <;> decide

theorem digitChar_isDigit (d : Nat) (h : d < 10) : (digitChar d).isDigit = true := by
  interval_cases d <;> decide

theorem natChars_isDigit (n : Nat) (c : Char) (h : c ∈ natChars n) : c.isDigit = true := by
  rw [natChars] at h
  by_cases hn : n = 0
  · rw [if_pos hn] at h; simp at h; subst h; decide
  · rw [if_neg hn] at h
    rcases List.mem_map.mp h with ⟨d, hd, hdc⟩
    rw [← hdc]
    exact digitChar_isDigit d (natDigitsRevAux_lt n n d (List.mem_reverse.mp hd))

theorem pyFormat04_isDigit (n : Nat) (c : Char) (h : c ∈ pyFormat04 n) : c.isDigit = true := by
  rw [pyFormat04] at h
  rcases List.mem_append.mp h with h | h
  · rw [List.eq_of_mem_replicate h]; decide
  · exact natChars_isDigit n c h

theorem foldr_digit_value : ∀ (L : List Nat), (∀ d ∈ L, d < 10) →
    L.foldr (fun d acc => acc * 10 + ((digitChar d).toNat - 48)) 0 = natFromRev L := by
  intro L
  induction L with
  | nil => intro _; simp [natFromRev]
  | cons d ds ih =>
    intro hL
    rw [List.foldr_cons, natFromRev, ih (fun x hx => hL x (List.mem_cons_of_mem d hx)),
      digitChar_toNat d (hL d (List.mem_cons_self d ds))]
    omega

theorem charsToNat_natChars (n : Nat) : charsToNat (natChars n) = n := by
  rw [natChars]
  by_cases hn : n = 0
  · rw [if_pos hn]; subst hn; decide
  · rw [if_neg hn, charsToNat, List.map_reverse, List.foldl_reverse, List.foldr_map]
    rw [foldr_digit_value (natDigitsRev n) (natDigitsRevAux_lt n n)]
    exact natFromRev_natDigitsRevAux n n (Nat.le_refl n)

theorem charsToNat_replicate_zero : ∀ (k : Nat) (s : List Char),
    charsToNat (List.replicate k '0' ++ s) = charsToNat s := by
  intro k
  induction k with
  | zero => intro s; simp
  | succ k ih =>
    intro s
    rw [List.replicate_succ, charsToNat, List.cons_append, List.foldl_cons]
    have : (0 : Nat) * 10 + ('0'.toNat - 48) = 0 := by decide
    rw [this]
    exact ih s

theorem charsToNat_pyFormat04 (n : Nat) : charsToNat (pyFormat04 n) = n := by
  rw [pyFormat04, charsToNat_replicate_zero]
  exact charsToNat_natChars n

theorem pyFormat04_inj {m n : Nat} (h : pyFormat04 m = pyFormat04 n) : m = n := by
  have := charsToNat_pyFormat04 m
  rw [h, charsToNat_pyFormat04 n] at this
  omega

theorem keepChar_of_isDigit (c : Char) (h : c.isDigit = true) : keepChar c = true := by
  simp [keepChar, pyIsAlnum, h]

theorem filter_pyFormat04 (n : Nat) : (pyFormat04 n).filter keepChar = pyFormat04 n := by
  apply List.filter_eq_self.mpr
  intro c hc
  exact keepChar_of_isDigit c (pyFormat04_isDigit n c hc)

theorem underscore_notin_pyFormat04 (n : Nat) : '_' ∉ pyFormat04 n := by
  intro h
  have := pyFormat04_isDigit n '_' h
  simp at this

theorem sanitize_decomp (pre : List Char) (n : Nat) (t : List Char) :
    sanitizeFilename (pre ++ pyFormat04 n ++ '_' :: t) =
      pre.filter keepChar ++ pyFormat04 n ++ '_' :: pyRstrip (t.filter keepChar) := by
  rw [sanitizeFilename, List.filter_append, List.filter_append,
    List.filter_cons_of_pos (by decide), filter_pyFormat04]
  rw [pyRstrip]
  rw [List.reverse_append, List.reverse_cons, List.append_assoc, List.singleton_append]
  rw [dropWhile_append_cons pyIsSpace '_' (by decide)]
  rw [List.reverse_append, List.reverse_cons, List.reverse_reverse]
  simp [pyRstrip]

theorem append_underscore_inj : ∀ (A B x y : List Char), '_' ∉ A → '_' ∉ B →
    A ++ '_' :: x = B ++ '_' :: y → A = B := by
  intro A
  induction A with
  | nil =>
    intro B x y _ hB h
    cases B with
    | nil => rfl
    | cons b B =>
      rw [List.nil_append, List.cons_append] at h
      have hb : b = '_' := (List.cons.injEq _ _ _ _ ▸ h).1.symm
      exact absurd (hb ▸ List.mem_cons_self b B) hB
  | cons a A ih =>
    intro B x y hA hB h
    cases B with
    | nil =>
      rw [List.nil_append, List.cons_append] at h
      have ha : a = '_' := (List.cons.injEq _ _ _ _ ▸ h).1
      exact absurd (ha ▸ List.mem_cons_self a A) hA
    | cons b B =>
      rw [List.cons_append, List.cons_append] at h
      have h1 := (List.cons.injEq _ _ _ _ ▸ h).1
      have h2 := (List.cons.injEq _ _ _ _ ▸ h).2
      rw [h1, ih B x y (fun hm => hA (List.mem_cons_of_mem a hm))
        (fun hm => hB (List.mem_cons_of_mem b hm)) h2]

/-! Claim theorems. -/

/-- C6, counterexample: the sanitization function is not the plain
character filter described by the claim, because it also strips trailing
whitespace: on input "a " it returns "a" while the filter keeps the space. -/
theorem sanitize_cex : sanitizeFilename ['a', ' '] ≠ (['a', ' ']).filter keepChar := by
  decide

/-- C6 (amended): the sanitization function keeps exactly the alphanumeric,
space, dash and underscore characters in order, except that trailing
whitespace is then stripped from the result: every output character is in
the allowed set, the output is the filtered string minus a whitespace-only
suffix, and the output never ends in whitespace. -/
theorem sanitize_spec (l : List Char) :
    (∀ c ∈ sanitizeFilename l, keepChar c = true) ∧
    (∃ ws, l.filter keepChar = sanitizeFilename l ++ ws ∧ ∀ c ∈ ws, pyIsSpace c = true) ∧
    (∀ c, (sanitizeFilename l).getLast? = some c → pyIsSpace c = false) := by
  refine ⟨?_, ⟨((l.filter keepChar).reverse.takeWhile pyIsSpace).reverse, ?_, ?_⟩, ?_⟩
  · intro c hc
    exact (List.mem_filter.mp (mem_pyRstrip _ c hc)).2
  · rw [sanitizeFilename, pyRstrip]
    rw [← List.reverse_append, List.takeWhile_append_dropWhile, List.reverse_reverse]
  · intro c hc
    rw [List.mem_reverse] at hc
    exact List.mem_takeWhile_imp hc
  · intro c hc
    rw [sanitizeFilename, pyRstrip, List.getLast?_reverse] at hc
    exact head?_dropWhile pyIsSpace _ c hc

/-- C5: if the raw text is empty, or the symbology name is not a key of the
fixed registry, the single-item generation path fails with an InvalidInput
error (the empty-text dialog of on_generate_single, or the KeyError of the
registry lookup in generate_barcode) and writes no output file. -/
theorem single_invalid_input (env : Env) (st : St) (rawText : List Char)
    (bt fmt : String) (dir ts : List Char)
    (h : rawText = [] ∨ barcode_types.contains bt = false) :
    (∃ m, (on_generate_single env st rawText bt fmt dir ts).2 = .error (.invalidInput m)) ∧
    (on_generate_single env st rawText bt fmt dir ts).1 = st := by
  rcases h with h | h
  · subst h
    exact ⟨⟨"Please enter text for the barcode.", rfl⟩, rfl⟩
  · rw [on_generate_single]
    by_cases he : (pyStrip rawText).isEmpty
    · rw [if_pos he]
      exact ⟨⟨"Please enter text for the barcode.", rfl⟩, rfl⟩
    · rw [if_neg he, try_generate_barcode, if_pos (by rw [h])]
      exact ⟨⟨"KeyError: " ++ bt, rfl⟩, rfl⟩

/-- C5 witness: concrete instances of both failure modes. -/
theorem single_invalid_input_witness :
    ((∃ m, (on_generate_single envAllOk st0 [] "Code128" "PNG" [] []).2 = .error (.invalidInput m)) ∧
      (on_generate_single envAllOk st0 [] "Code128" "PNG" [] []).1 = st0) ∧
    ((∃ m, (on_generate_single envAllOk st0 ['7'] "QRCode" "PNG" [] []).2 = .error (.invalidInput m)) ∧
      (on_generate_single envAllOk st0 ['7'] "QRCode" "PNG" [] []).1 = st0) :=
  ⟨single_invalid_input envAllOk st0 [] "Code128" "PNG" [] [] (Or.inl rfl),
   single_invalid_input envAllOk st0 ['7'] "QRCode" "PNG" [] [] (Or.inr (by decide))⟩

/-- C4, counterexample: the GUI-module generate_barcode, asked for PDF
output while HAS_PDF_SUPPORT is false, does not fail with an
UnsupportedFeature error: it silently falls through to the PNG branch and
reports success, writing out/f.png. -/
theorem pdf_fallback_cex :
    (try_generate_barcode envNoPdf st0 ['1'] "Code128" "PDF" "out".data (some ['f']) []).2
      = .ok true ∧
    (try_generate_barcode envNoPdf st0 ['1'] "Code128" "PDF" "out".data (some ['f']) []).1.written
      = ["out/f.png".data] :=
  ⟨rfl, rfl⟩

/-- C4 (amended): the logic-module generator does fail with
UnsupportedFeature when document output is requested while the document
library is unavailable, writing nothing; the GUI-module generator instead
falls back to PNG output (its UI never offers PDF in that configuration). -/
theorem pdf_unsupported_logic (env : Env) (st : St) (text : List Char)
    (bt fmt : String) (dir : List Char) (fnOpt : Option (List Char)) (ts : List Char)
    (hpdf : env.hasPdfSupport = false)
    (hbt : logic_barcode_types.contains bt = true)
    (hfmt : pyUpper fmt = "PDF") :
    (logic_generate_barcode env st text bt fmt dir fnOpt ts).2
      = .error (.unsupportedFeature "PDF support not available. Install reportlab and pillow.") ∧
    (logic_generate_barcode env st text bt fmt dir fnOpt ts).1 = st := by
  rw [logic_generate_barcode, if_neg (by rw [hbt]; simp)]
  rw [if_neg (by rw [hfmt]; decide)]
  rw [if_pos (by rw [hfmt]; decide)]
  rw [if_pos hpdf]
  exact ⟨rfl, rfl⟩

/-- C4 witness: the logic-module generator at a concrete input, with the
format given in lowercase to exercise the case-insensitive comparison. -/
theorem pdf_unsupported_logic_witness :
    (logic_generate_barcode envNoPdf st0 "123".data "Code128" "pdf" "out".data none []).2
      = .error (.unsupportedFeature "PDF support not available. Install reportlab and pillow.") ∧
    (logic_generate_barcode envNoPdf st0 "123".data "Code128" "pdf" "out".data none []).1 = st0 :=
  pdf_unsupported_logic envNoPdf st0 "123".data "Code128" "pdf" "out".data none []
    rfl (by decide) (by decide)

/-- C3, counterexample: in the document-format generator, when the final
canvas save raises, the operation propagates the error while the temporary
raster image is still present — the temporary image is not deleted on this
exit path. -/
theorem pdf_temp_cleanup_cex :
    (try_generate_pdf_barcode envSaveFail st0 "123".data "out".data ['f']).2
      = .error (.ioFailure "canvas save failed") ∧
    temp_barcode_png ∈ (try_generate_pdf_barcode envSaveFail st0 "123".data "out".data ['f']).1.temps :=
  ⟨rfl, by decide⟩

/-- C3 (amended): the temporary raster image is deleted only on the success
path, after the document has been saved, guarded by an existence check; on
error exits (drawImage or canvas save raising) the temporary image remains
on disk, and a failure of the deletion itself propagates as the operation's
error instead of being swallowed. -/
theorem pdf_temp_cleanup (env : Env) (st : St) (text : List Char) (dir fn : List Char)
    (hpdf : env.hasPdfSupport = true) (henc : env.encodeSaveOk text = true)
    (hnm : temp_barcode_png ∉ st.temps) :
    (env.drawImageOk = true → env.canvasSaveOk = true → env.removeOk = true →
      (try_generate_pdf_barcode env st text dir fn).1.temps = st.temps ∧
      (try_generate_pdf_barcode env st text dir fn).2 = .ok true) ∧
    (env.drawImageOk = true → env.canvasSaveOk = false →
      temp_barcode_png ∈ (try_generate_pdf_barcode env st text dir fn).1.temps ∧
      (try_generate_pdf_barcode env st text dir fn).2 = .error (.ioFailure "canvas save failed")) ∧
    (env.drawImageOk = true → env.canvasSaveOk = true → env.removeOk = false →
      temp_barcode_png ∈ (try_generate_pdf_barcode env st text dir fn).1.temps ∧
      (try_generate_pdf_barcode env st text dir fn).2 = .error (.ioFailure "os.remove failed")) := by
  have hcont : temp_barcode_png ∈ st.temps ++ [temp_barcode_png] := by
    simp
  have hfilt : (st.temps ++ [temp_barcode_png]).filter (fun f => !(f == temp_barcode_png))
      = st.temps := by
    rw [List.filter_append, filter_ne_of_not_mem st.temps temp_barcode_png hnm]
    simp
  refine ⟨?_, ?_, ?_⟩
  · intro hd hc hr
    rw [try_generate_pdf_barcode, if_neg (by rw [hpdf]; simp), if_neg (by rw [henc]; simp),
      if_neg (by rw [hd]; simp), if_neg (by rw [hc]; simp), if_pos hcont, if_pos hr]
    exact ⟨hfilt, rfl⟩
  · intro hd hc
    rw [try_generate_pdf_barcode, if_neg (by rw [hpdf]; simp), if_neg (by rw [henc]; simp),
      if_neg (by rw [hd]; simp), if_pos hc]
    exact ⟨by simp, rfl⟩
  · intro hd hc hr
    rw [try_generate_pdf_barcode, if_neg (by rw [hpdf]; simp), if_neg (by rw [henc]; simp),
      if_neg (by rw [hd]; simp), if_neg (by rw [hc]; simp), if_pos hcont,
      if_neg (by rw [hr]; simp)]
    exact ⟨by simp, rfl⟩

/-- C3 witness: the amended statement instantiated at a concrete input. -/
theorem pdf_temp_cleanup_witness :
    ((envAllOk.drawImageOk = true → envAllOk.canvasSaveOk = true → envAllOk.removeOk = true →
      (try_generate_pdf_barcode envAllOk st0 "123".data "out".data ['f']).1.temps = st0.temps ∧
      (try_generate_pdf_barcode envAllOk st0 "123".data "out".data ['f']).2 = .ok true) ∧
    (envAllOk.drawImageOk = true → envAllOk.canvasSaveOk = false →
      temp_barcode_png ∈ (try_generate_pdf_barcode envAllOk st0 "123".data "out".data ['f']).1.temps ∧
      (try_generate_pdf_barcode envAllOk st0 "123".data "out".data ['f']).2 = .error (.ioFailure "canvas save failed")) ∧
    (envAllOk.drawImageOk = true → envAllOk.canvasSaveOk = true → envAllOk.removeOk = false →
      temp_barcode_png ∈ (try_generate_pdf_barcode envAllOk st0 "123".data "out".data ['f']).1.temps ∧
      (try_generate_pdf_barcode envAllOk st0 "123".data "out".data ['f']).2 = .error (.ioFailure "os.remove failed"))) :=
  pdf_temp_cleanup envAllOk st0 "123".data "out".data ['f'] rfl rfl (by decide)

/-- C8: within one batch run (fixed prefix), the derived-and-sanitized
filenames are injective over the item indices: for 0-based loop indices
i and j (1-based items i+1 and j+1), distinct indices yield distinct
filenames even if the two texts sanitize identically, because the
zero-padded decimal index survives sanitization and sits left of an
underscore that trailing-whitespace stripping can never reach. -/
theorem batch_filename_injective (pre t1 t2 : List Char) (i j : Nat) (h : i ≠ j) :
    batch_filename pre i t1 ≠ batch_filename pre j t2 := by
  intro heq
  rw [batch_filename, batch_filename, sanitize_decomp, sanitize_decomp,
    List.append_assoc, List.append_assoc] at heq
  have heq2 := List.append_cancel_left heq
  have hAB := append_underscore_inj (pyFormat04 (i + 1)) (pyFormat04 (j + 1)) _ _
    (underscore_notin_pyFormat04 (i + 1)) (underscore_notin_pyFormat04 (j + 1)) heq2
  exact h (by have := pyFormat04_inj hAB; omega)

/-- C8 witness: two items whose texts sanitize to the same string still get
distinct filenames at distinct indices. -/
theorem batch_filename_injective_witness :
    batch_filename "x_".data 0 "A!".data ≠ batch_filename "x_".data 1 "A?".data :=
  batch_filename_injective "x_".data "A!".data "A?".data 0 1 (by decide)

/-- In the individual-output loop every item is counted exactly once,
either in the success counter or in the failed-items list. -/
theorem batchLoop_accounting (env : Env) (bt fmt : String) (dir pre : List Char) :
    ∀ (data : List (List Char)) (i : Nat) (st : St),
    (batchLoop env bt fmt dir pre data i st).2.1 +
      (batchLoop env bt fmt dir pre data i st).2.2.length = data.length := by
  intro data
  induction data with
  | nil => intro i st; simp [batchLoop]
  | cons text rest ih =>
    intro i st
    have ih1 := ih (i + 1) (try_generate_barcode env st text bt
      (if fmt == "PDF (Individual)" then "PDF" else fmt) dir (some (batch_filename pre i text)) []).1
    simp only [batchLoop]
    rcases h : (try_generate_barcode env st text bt
      (if fmt == "PDF (Individual)" then "PDF" else fmt) dir
      (some (batch_filename pre i text)) []).2 with e | b
    · simp only [h, List.length_cons]
      omega
    · cases b <;> simp only [h, List.length_cons] <;> omega

/-- C1, counterexample: a combined-document batch run over one item in
which the final canvas save fails reports success_count = 0 and
failed_items = [], so success_count + len(failed_items) = 0 ≠ 1 = len(items). -/
theorem batch_accounting_cex :
    batchReport (on_generate_batch envSaveFail st0 [['A']] "Code128" "PDF (Combined)" [] [])
      = (0, []) ∧
    (batchReport (on_generate_batch envSaveFail st0 [['A']] "Code128" "PDF (Combined)" [] [])).1
      + (batchReport (on_generate_batch envSaveFail st0 [['A']] "Code128" "PDF (Combined)" [] [])).2.length
      ≠ ([['A']] : List (List Char)).length :=
  ⟨rfl, by decide⟩

/-- C1 (amended): in an individual-output batch run the reported result
always satisfies success_count + len(failed_items) = len(items); in a
combined-document run the identity holds when the assembler's final save
succeeds, while on assembler failure the run reports success_count = 0 and
failed_items = [], leaving the items unaccounted. -/
theorem batch_accounting (env : Env) (st : St) (data : List (List Char))
    (bt fmt : String) (dir pre : List Char) (hne : data ≠ []) :
    (¬(fmt = "PDF (Combined)" ∧ env.hasPdfSupport = true) →
      (batchReport (on_generate_batch env st data bt fmt dir pre)).1 +
        (batchReport (on_generate_batch env st data bt fmt dir pre)).2.length = data.length) ∧
    (fmt = "PDF (Combined)" → env.hasPdfSupport = true → env.canvasSaveOk = true →
      (batchReport (on_generate_batch env st data bt fmt dir pre)).1 +
        (batchReport (on_generate_batch env st data bt fmt dir pre)).2.length = data.length) ∧
    (fmt = "PDF (Combined)" → env.hasPdfSupport = true → env.canvasSaveOk = false →
      batchReport (on_generate_batch env st data bt fmt dir pre) = (0, [])) := by
  have hie : data.isEmpty = false := by
    cases data with
    | nil => exact absurd rfl hne
    | cons a l => rfl
  refine ⟨?_, ?_, ?_⟩
  · intro hnc
    have hcond : ((fmt == "PDF (Combined)") && env.hasPdfSupport) = false := by
      cases hf : fmt == "PDF (Combined)"
      · simp
      · cases hps : env.hasPdfSupport
        · simp
        · exact absurd ⟨eq_of_beq hf, hps⟩ hnc
    rw [on_generate_batch, if_neg (by rw [hie]; simp), if_neg (by rw [hcond]; simp)]
    simpa [batchReport] using batchLoop_accounting env bt fmt dir pre data 0 st
  · intro hf hps hcs
    subst hf
    rw [on_generate_batch, if_neg (by rw [hie]; simp), if_pos (by rw [hps]; simp)]
    have hg : (generate_combined_pdf env st data bt dir pre).2.1 = true := by
      rw [generate_combined_pdf, if_neg (by rw [hps]; simp)]
      simp [hcs]
    simp [batchReport, hg]
  · intro hf hps hcs
    subst hf
    rw [on_generate_batch, if_neg (by rw [hie]; simp), if_pos (by rw [hps]; simp)]
    have hg : (generate_combined_pdf env st data bt dir pre).2.1 = false := by
      rw [generate_combined_pdf, if_neg (by rw [hps]; simp)]
      simp [hcs]
    simp [batchReport, hg]

/-- C1 witness: an individual-output run where the identity holds. -/
theorem batch_accounting_witness :
    (batchReport (on_generate_batch envAllOk st0 [['A']] "Code128" "PNG" [] [])).1 +
      (batchReport (on_generate_batch envAllOk st0 [['A']] "Code128" "PNG" [] [])).2.length
      = ([['A']] : List (List Char)).length :=
  (batch_accounting envAllOk st0 [['A']] "Code128" "PNG" [] [] (by decide)).1 (by decide)

/-- C2: over items ["A1","B2","C3"], symbology Code128, PNG output and
prefix "x_", an individual batch run in which the encoder succeeds on
every item writes exactly x_0001_A1.png, x_0002_B2.png, x_0003_C3.png
into the output directory (and nothing else), and reports
success_count = 3 with failed_items = []; each filename is
prefix ++ zero-padded(index, 4) ++ underscore ++ truncate(text, 20),
sanitized, as computed by batch_filename. -/
theorem batch_png_scenario (st : St) (dir : List Char) :
    (on_generate_batch envAllOk st ["A1".data, "B2".data, "C3".data] "Code128" "PNG" dir "x_".data).1.written
      = st.written ++ [dir ++ '/' :: "x_0001_A1.png".data]
          ++ [dir ++ '/' :: "x_0002_B2.png".data]
          ++ [dir ++ '/' :: "x_0003_C3.png".data] ∧
    (on_generate_batch envAllOk st ["A1".data, "B2".data, "C3".data] "Code128" "PNG" dir "x_".data).1.temps
      = st.temps ∧
    (on_generate_batch envAllOk st ["A1".data, "B2".data, "C3".data] "Code128" "PNG" dir "x_".data).2
      = .ok (3, []) :=
  ⟨rfl, rfl, rfl⟩

/-- C10: in a combined-document batch run, if the final document save
succeeds then the assembler returns true no matter how many individual
items failed to encode, and the batch reports success_count = len(items)
with an empty failure list. -/
theorem combined_success (env : Env) (st : St) (data : List (List Char)) (bt : String)
    (dir pre : List Char) (hne : data ≠ []) (hpdf : env.hasPdfSupport = true)
    (hsave : env.canvasSaveOk = true) :
    (generate_combined_pdf env st data bt dir pre).2.1 = true ∧
    (on_generate_batch env st data bt "PDF (Combined)" dir pre).2 = .ok (data.length, []) := by
  have hie : data.isEmpty = false := by
    cases data with
    | nil => exact absurd rfl hne
    | cons a l => rfl
  have hg : (generate_combined_pdf env st data bt dir pre).2.1 = true := by
    rw [generate_combined_pdf, if_neg (by rw [hpdf]; simp)]
    simp [hsave]
  refine ⟨hg, ?_⟩
  rw [on_generate_batch, if_neg (by rw [hie]; simp), if_pos (by rw [hpdf]; simp)]
  simp [hg]

/-- C10 witness: both items fail to encode, yet the run reports
success_count = 2 and no failed items. -/
theorem combined_success_witness :
    (generate_combined_pdf envEncodeFail st0 ["A1".data, "B2".data] "Code128" [] []).2.1 = true ∧
    (on_generate_batch envEncodeFail st0 ["A1".data, "B2".data] "Code128" "PDF (Combined)" [] []).2
      = .ok (([("A1".data : List Char), "B2".data]).length, []) :=
  combined_success envEncodeFail st0 ["A1".data, "B2".data] "Code128" [] [] (by decide) rfl rfl

/-- Every placement recorded by the combined-document item loop satisfies
the closed-form grid formula in its global index. -/
theorem combinedLoop_mem (env : Env) (bt : String) :
    ∀ (data : List (List Char)) (i0 : Nat) (st : St) (p : Nat × ℚ × ℚ),
    p ∈ (combinedLoop env bt data i0 st).2 →
    p.2.1 = comb_margin + (((p.1 % barcodes_per_page) % barcodes_per_row : Nat) : ℚ)
        * (comb_barcode_width + comb_spacing) ∧
    p.2.2 = A4_height - comb_margin
        - ((((p.1 % barcodes_per_page) / barcodes_per_row : Nat) : ℚ) + 1)
        * (comb_barcode_height + comb_spacing) := by
  intro data
  induction data with
  | nil => intro i0 st p hp; simp [combinedLoop] at hp
  | cons text rest ih =>
    intro i0 st p hp
    simp only [combinedLoop] at hp
    by_cases he : env.encodeSaveOk text = true
    · rw [if_pos he] at hp
      by_cases hd : env.drawImageOk = true
      · rw [if_pos hd] at hp
        rcases List.mem_cons.mp hp with h | h
        · subst h; exact ⟨rfl, rfl⟩
        · exact ih _ _ _ h
      · rw [if_neg hd] at hp
        exact ih _ _ _ hp
    · rw [if_neg he] at hp
      exact ih _ _ _ hp

/-- C7: in the combined-document assembler the grid parameters are
items_per_row = max(1, floor(usable_width / (box_width + spacing))),
items_per_column = max(1, floor(usable_height / (box_height + spacing))),
items_per_page their product, with box 250 x 80, spacing 20 and margin 72;
and every placed item with 0-based global index i sits at
x = margin + ((i mod per_page) mod per_row) * (box_width + spacing) and
y = page_top - margin - (((i mod per_page) div per_row) + 1) * (box_height + spacing). -/
theorem combined_layout (env : Env) (st : St) (data : List (List Char)) (bt : String)
    (dir pre : List Char) (i : Nat) (x y : ℚ)
    (hmem : (i, x, y) ∈ (generate_combined_pdf env st data bt dir pre).2.2) :
    barcodes_per_row = max 1 (pyInt (usable_width / (comb_barcode_width + comb_spacing))) ∧
    barcodes_per_column = max 1 (pyInt (usable_height / (comb_barcode_height + comb_spacing))) ∧
    barcodes_per_page = barcodes_per_row * barcodes_per_column ∧
    comb_barcode_width = 250 ∧ comb_barcode_height = 80 ∧ comb_spacing = 20 ∧ comb_margin = 72 ∧
    x = comb_margin + (((i % barcodes_per_page) % barcodes_per_row : Nat) : ℚ)
        * (comb_barcode_width + comb_spacing) ∧
    y = A4_height - comb_margin
        - ((((i % barcodes_per_page) / barcodes_per_row : Nat) : ℚ) + 1)
        * (comb_barcode_height + comb_spacing) := by
  have hloop : (i, x, y) ∈ (combinedLoop env bt data 0 st).2 := by
    simp only [generate_combined_pdf] at hmem
    by_cases hp : env.hasPdfSupport = false
    · rw [if_pos hp] at hmem; simp at hmem
    · rw [if_neg hp] at hmem
      by_cases hc : env.canvasSaveOk = true
      · rw [if_pos hc] at hmem; exact hmem
      · rw [if_neg hc] at hmem; exact hmem
  have h := combinedLoop_mem env bt data 0 st (i, x, y) hloop
  exact ⟨rfl, rfl, rfl, rfl, rfl, rfl, rfl, h.1, h.2⟩

/-- C7 witness: the item with global index 0 of a one-item run is placed at
x = 72 and y = 85076/127 (which is A4 height minus 72 minus 100), and these
satisfy the grid formula. -/
theorem combined_layout_witness :
    (72 : ℚ) = comb_margin + (((0 % barcodes_per_page) % barcodes_per_row : Nat) : ℚ)
        * (comb_barcode_width + comb_spacing) ∧
    (85076/127 : ℚ) = A4_height - comb_margin
        - ((((0 % barcodes_per_page) / barcodes_per_row : Nat) : ℚ) + 1)
        * (comb_barcode_height + comb_spacing) := by
  have hmem : ((0 : Nat), (72 : ℚ), (85076/127 : ℚ))
      ∈ (generate_combined_pdf envAllOk st0 [['A']] "Code128" [] []).2.2 := by
    simp [generate_combined_pdf, combinedLoop, envAllOk, st0, A4_height, mmQ, comb_margin,
      comb_barcode_height, comb_barcode_width, comb_spacing]
    norm_num
  have h := combined_layout envAllOk st0 [['A']] "Code128" [] [] 0 72 (85076/127) hmem
  exact ⟨h.2.2.2.2.2.2.2.1, h.2.2.2.2.2.2.2.2⟩

/-! Dictionary lemmas for the settings round-trip. -/

theorem dget_cons (p : String × SVal) (d : Settings) (k : String) :
    dget (p :: d) k = if p.1 == k then some p.2 else dget d k := by
  rw [dget, dget]
  cases h : p.1 == k <;> simp [List.find?_cons, h]

theorem dget_append_some : ∀ (a b : Settings) (k : String) (v : SVal),
    dget a k = some v → dget (a ++ b) k = some v := by
  intro a
  induction a with
  | nil => intro b k v h; simp [dget] at h
  | cons p a ih =>
    intro b k v h
    rw [dget_cons] at h
    rw [List.cons_append, dget_cons]
    by_cases hb : (p.1 == k) = true
    · rw [if_pos hb] at h; rw [if_pos hb]; exact h
    · rw [if_neg hb] at h; rw [if_neg hb]; exact ih b k v h

theorem dget_append_none : ∀ (a b : Settings) (k : String),
    dget a k = none → dget (a ++ b) k = dget b k := by
  intro a
  induction a with
  | nil => intro b k _; simp
  | cons p a ih =>
    intro b k h
    rw [dget_cons] at h
    rw [List.cons_append, dget_cons]
    by_cases hb : (p.1 == k) = true
    · rw [if_pos hb] at h; exact absurd h (by simp)
    · rw [if_neg hb] at h; rw [if_neg hb]; exact ih b k h

theorem dget_map_override (s : Settings) : ∀ (d : Settings) (k : String),
    dget (d.map (fun p => (p.1, (dget s p.1).getD p.2))) k
      = (dget d k).map (fun w => (dget s k).getD w) := by
  intro d
  induction d with
  | nil => intro k; simp [dget]
  | cons p d ih =>
    intro k
    rw [List.map_cons, dget_cons, dget_cons]
    by_cases hb : (p.1 == k) = true
    · have hk : p.1 = k := eq_of_beq hb
      rw [if_pos hb, if_pos hb]
      simp [hk]
    · rw [if_neg hb, if_neg hb, ih]

theorem dget_filter (P : String × SVal → Bool) (k : String)
    (hP : ∀ q : String × SVal, q.1 = k → P q = true) :
    ∀ s : Settings, dget (s.filter P) k = dget s k := by
  intro s
  induction s with
  | nil => simp
  | cons q s ih =>
    rw [List.filter_cons]
    by_cases hq : P q = true
    · rw [if_pos hq, dget_cons, dget_cons]
      by_cases hb : (q.1 == k) = true
      · rw [if_pos hb, if_pos hb]
      · rw [if_neg hb, if_neg hb, ih]
    · have hbk : ¬((q.1 == k) = true) := fun hb => hq (hP q (eq_of_beq hb))
      rw [if_neg hq, dget_cons, if_neg hbk, ih]

/-- dict.update gives every key of the update dict its updated value. -/
theorem dget_dictUpdate (d s : Settings) (k : String) (v : SVal)
    (h : dget s k = some v) : dget (dictUpdate d s) k = some v := by
  rw [dictUpdate]
  cases hd : dget d k with
  | some w =>
    apply dget_append_some
    rw [dget_map_override s d k, hd, h]
    rfl
  | none =>
    rw [dget_append_none _ _ _ (by rw [dget_map_override s d k, hd]; rfl)]
    rw [dget_filter _ k (fun q hq => by rw [hq, hd]; rfl) s]
    exact h

/-- C9: saving the settings dict to the settings file and loading it back
on a fresh start (built-in defaults updated with the parsed file)
reproduces every field of the saved settings exactly. -/
theorem settings_roundtrip (saved : Settings) (k : String) (v : SVal)
    (h : dget saved k = some v) :
    dget (load_settings (some (save_settings saved))) k = some v :=
  dget_dictUpdate default_settings saved k v h

/-- C9 witness: a settings dict with a changed numeric field and an extra
key round-trips both. -/
theorem settings_roundtrip_witness :
    dget (load_settings (some (save_settings
      [("barcode_width", SVal.q 3), ("custom_key", SVal.s "extra")]))) "barcode_width"
      = some (SVal.q 3) ∧
    dget (load_settings (some (save_settings
      [("barcode_width", SVal.q 3), ("custom_key", SVal.s "extra")]))) "custom_key"
      = some (SVal.s "extra") :=
  ⟨settings_roundtrip [("barcode_width", SVal.q 3), ("custom_key", SVal.s "extra")]
      "barcode_width" (SVal.q 3) rfl,
   settings_roundtrip [("barcode_width", SVal.q 3), ("custom_key", SVal.s "extra")]
      "custom_key" (SVal.s "extra") rfl⟩

end BarcodeGen
